import Mathlib

/-!
Shallow embedding of the `union` chat client core (chat-ui `page.js`, both
variants). The embedded parts are: the JSON parsing used by the response
interpreter (`JSON.parse` on the reply string), the inline response
interpreter of `sendMessage` (structured-analysis rendering with
placeholder fallbacks, plain-text fallback on a parse or property-access
exception), and the `sendMessage` dispatch controller together with the
UI-level submit gating (`disabled` on the form controls while loading).
-/

set_option maxRecDepth 100000

namespace ChatUI

/-- Values produced by `JSON.parse`. Numbers keep their source lexeme:
none of the modelled behavior depends on numeric value except JS
truthiness, which is decided from the lexeme. -/
inductive JsValue : Type where
  | jnull : JsValue
  | jbool : Bool → JsValue
  | jnum : String → JsValue
  | jstr : String → JsValue
  | jarr : List JsValue → JsValue
  | jobj : List (String × JsValue) → JsValue
deriving Repr, Inhabited

/-- JSON whitespace accepted by `JSON.parse` between tokens. -/
def isJsonWs (c : Char) : Bool :=
  c = ' ' || c = '\t' || c = '\n' || c = '\r'

/-- Drop leading JSON whitespace. -/
def skipWs : List Char → List Char
  | [] => []
  | c :: cs => if isJsonWs c then skipWs cs else c :: cs

/-- Opening curly bracket character. -/
def lbrace : Char := Char.ofNat 123

/-- Closing curly bracket character. -/
def rbrace : Char := Char.ofNat 125

/-- Hexadecimal digit value. -/
def hexVal (c : Char) : Option Nat :=
  if '0' ≤ c ∧ c ≤ '9' then some (c.toNat - 48)
  else if 'a' ≤ c ∧ c ≤ 'f' then some (c.toNat - 97 + 10)
  else if 'A' ≤ c ∧ c ≤ 'F' then some (c.toNat - 65 + 10)
  else none

/-- Body of a JSON string after the opening quote. Returns the decoded
characters and the remainder after the closing quote. Control characters
below U+0020 are rejected, escapes follow the JSON grammar; a `\u` escape
naming a surrogate code unit (not a Lean scalar value) is modelled as
U+FFFD. Fuel decreases on every consumed character. -/
def parseStringBody : Nat → List Char → Option (List Char × List Char)
  | 0, _ => none
  | _ + 1, [] => none
  | fuel + 1, c :: rest =>
    if c = '"' then some ([], rest)
    else if c = '\\' then
      match rest with
      | [] => none
      | e :: rest2 =>
        if e = '"' || e = '\\' || e = '/' then
          match parseStringBody fuel rest2 with
          | some (cs, r) => some (e :: cs, r)
          | none => none
        else if e = 'b' then
          match parseStringBody fuel rest2 with
          | some (cs, r) => some (Char.ofNat 8 :: cs, r)
          | none => none
        else if e = 'f' then
          match parseStringBody fuel rest2 with
          | some (cs, r) => some (Char.ofNat 12 :: cs, r)
          | none => none
        else if e = 'n' then
          match parseStringBody fuel rest2 with
          | some (cs, r) => some ('\n' :: cs, r)
          | none => none
        else if e = 'r' then
          match parseStringBody fuel rest2 with
          | some (cs, r) => some ('\r' :: cs, r)
          | none => none
        else if e = 't' then
          match parseStringBody fuel rest2 with
          | some (cs, r) => some ('\t' :: cs, r)
          | none => none
        else if e = 'u' then
          match rest2 with
          | h1 :: h2 :: h3 :: h4 :: rest3 =>
            match hexVal h1, hexVal h2, hexVal h3, hexVal h4 with
            | some a, some b, some c3, some d =>
              let n := a * 4096 + b * 256 + c3 * 16 + d
              let ch := if 0xd800 ≤ n ∧ n < 0xe000 then Char.ofNat 0xfffd
                        else Char.ofNat n
              match parseStringBody fuel rest3 with
              | some (cs, r) => some (ch :: cs, r)
              | none => none
            | _, _, _, _ => none
          | _ => none
        else none
    else if c.toNat < 32 then none
    else
      match parseStringBody fuel rest with
      | some (cs, r) => some (c :: cs, r)
      | none => none

/-- Longest digit prefix of a character list. -/
def takeDigits : List Char → List Char × List Char
  | [] => ([], [])
  | c :: cs =>
    if c.isDigit then
      let (d, r) := takeDigits cs
      (c :: d, r)
    else ([], c :: cs)

/-- JSON number token per the `JSON.parse` grammar:
optional minus, `0` or a nonzero-led digit run, optional fraction,
optional exponent. Returns the lexeme and the remainder. -/
def parseNumber (cs : List Char) : Option (List Char × List Char) :=
  let (sign, cs1) : List Char × List Char :=
    match cs with
    | '-' :: rest => (['-'], rest)
    | _ => ([], cs)
  match cs1 with
  | [] => none
  | c :: rest =>
    if ¬ c.isDigit then none
    else
      let (ipart, cs2) : List Char × List Char :=
        if c = '0' then ([c], rest)
        else
          let (d, r) := takeDigits rest
          (c :: d, r)
      let fracRes : Option (List Char × List Char) :=
        match cs2 with
        | '.' :: r2 =>
          let (d, r3) := takeDigits r2
          if d = [] then none else some ('.' :: d, r3)
        | _ => some ([], cs2)
      match fracRes with
      | none => none
      | some (fpart, cs3) =>
        let expRes : Option (List Char × List Char) :=
          match cs3 with
          | e :: r4 =>
            if e = 'e' || e = 'E' then
              let (esign, r5) : List Char × List Char :=
                match r4 with
                | '+' :: r => (['+'], r)
                | '-' :: r => (['-'], r)
                | _ => ([], r4)
              let (d, r6) := takeDigits r5
              if d = [] then none else some (e :: (esign ++ d), r6)
            else some ([], cs3)
          | [] => some ([], cs3)
        match expRes with
        | none => none
        | some (epart, cs4) => some (sign ++ ipart ++ fpart ++ epart, cs4)

mutual

/-- One JSON value, mirroring `JSON.parse`: leading whitespace, then
null, booleans, strings, numbers, arrays or objects. Fuel bounds the
recursion; `parseJson` supplies enough for any input it is given. -/
def parseValue : Nat → List Char → Option (JsValue × List Char)
  | 0, _ => none
  | fuel + 1, cs0 =>
    let cs := skipWs cs0
    match cs with
    | [] => none
    | c :: rest =>
      if c = '"' then
        match parseStringBody (rest.length + 1) rest with
        | some (chars, rest2) => some (.jstr (String.mk chars), rest2)
        | none => none
      else if c = 'n' then
        match rest with
        | 'u' :: 'l' :: 'l' :: rest2 => some (.jnull, rest2)
        | _ => none
      else if c = 't' then
        match rest with
        | 'r' :: 'u' :: 'e' :: rest2 => some (.jbool true, rest2)
        | _ => none
      else if c = 'f' then
        match rest with
        | 'a' :: 'l' :: 's' :: 'e' :: rest2 => some (.jbool false, rest2)
        | _ => none
      else if c = '[' then
        match skipWs rest with
        | c2 :: rest2 =>
          if c2 = ']' then some (.jarr [], rest2)
          else parseArrayRest fuel [] rest
        | [] => none
      else if c = lbrace then
        match skipWs rest with
        | c2 :: rest2 =>
          if c2 = rbrace then some (.jobj [], rest2)
          else parseObjectRest fuel [] rest
        | [] => none
      else if c = '-' || c.isDigit then
        match parseNumber cs with
        | some (lexeme, rest2) => some (.jnum (String.mk lexeme), rest2)
        | none => none
      else none

/-- Comma-separated array elements after `[`, accumulating in order. -/
def parseArrayRest : Nat → List JsValue → List Char → Option (JsValue × List Char)
  | 0, _, _ => none
  | fuel + 1, acc, cs =>
    match parseValue fuel cs with
    | none => none
    | some (v, cs2) =>
      match skipWs cs2 with
      | c :: cs3 =>
        if c = ',' then parseArrayRest fuel (acc ++ [v]) cs3
        else if c = ']' then some (.jarr (acc ++ [v]), cs3)
        else none
      | [] => none

/-- Comma-separated `key : value` members after the opening bracket of an
object, accumulating pairs in order. Duplicate keys are all kept;
property lookup takes the last occurrence, matching the `JSON.parse`
overwrite semantics. -/
def parseObjectRest : Nat → List (String × JsValue) → List Char → Option (JsValue × List Char)
  | 0, _, _ => none
  | fuel + 1, acc, cs =>
    match skipWs cs with
    | c :: rest =>
      if c = '"' then
        match parseStringBody (rest.length + 1) rest with
        | some (kChars, cs2) =>
          match skipWs cs2 with
          | ':' :: cs3 =>
            match parseValue fuel cs3 with
            | none => none
            | some (v, cs4) =>
              let acc2 := acc ++ [(String.mk kChars, v)]
              match skipWs cs4 with
              | c2 :: cs5 =>
                if c2 = ',' then parseObjectRest fuel acc2 cs5
                else if c2 = rbrace then some (.jobj acc2, cs5)
                else none
              | [] => none
          | _ => none
        | none => none
      else none
    | [] => none

end

/-- The embedding of `JSON.parse` applied to a whole string: one value,
then nothing but trailing whitespace; `none` models a thrown
`SyntaxError`. The fuel `2 * length + 2` dominates the recursion depth,
which consumes at least one character per two fuel units. -/
def parseJson (s : String) : Option JsValue :=
  match parseValue (2 * s.length + 2) s.data with
  | some (v, rest) => if skipWs rest = [] then some v else none
  | none => none

/-- Own-property lookup, `v.k` on a non-null value (and `v?.k` on one):
`some` is a present property value, `none` is `undefined`. On a
`JSON.parse` object with duplicate keys the last occurrence wins. The
accessed keys (`analysis`, `final_answer`, ...) exist on no prototype, so
own-property lookup is faithful for them; primitives and arrays yield
`undefined` for these keys. -/
def getProp (v : JsValue) (k : String) : Option JsValue :=
  match v with
  | .jobj fields => lookupLast fields k
  | _ => none
where
  /-- Last binding of the key in the field list. -/
  lookupLast : List (String × JsValue) → String → Option JsValue
    | [], _ => none
    | (k2, v2) :: rest, key =>
      match lookupLast rest key with
      | some r => some r
      | none => if k2 = key then some v2 else none

/-- Optional chaining `a?.k`: `undefined` and `null` short-circuit to
`undefined`, anything else is property lookup. -/
def optChain (a : Option JsValue) (k : String) : Option JsValue :=
  match a with
  | none => none
  | some .jnull => none
  | some v => getProp v k

/-- Whether a JSON number lexeme denotes zero: every mantissa digit is 0
(the exponent cannot make a nonzero mantissa zero). -/
def numLexemeIsZero (s : String) : Bool :=
  let body := if s.startsWith "-" then s.drop 1 else s
  let mantissa := body.takeWhile (fun c => c ≠ 'e' ∧ c ≠ 'E')
  mantissa.all (fun c => c = '0' || c = '.')

/-- JS truthiness of a possibly-undefined value: `undefined`, `null`,
`false`, the empty string and zero are falsy. -/
def truthy : Option JsValue → Bool
  | none => false
  | some .jnull => false
  | some (.jbool b) => b
  | some (.jnum lexeme) => ! numLexemeIsZero lexeme
  | some (.jstr s) => s != ""
  | some (.jarr _) => true
  | some (.jobj _) => true

/-- The JS `x || dflt` fallback: the value itself when truthy, the
default otherwise (also when the value is `undefined`). -/
def jsOr (v : Option JsValue) (dflt : JsValue) : JsValue :=
  if truthy v then v.getD dflt else dflt

/-- The four values shown in the structured-analysis rendering, each a
present field value or its placeholder after the `||` fallback. -/
structure AnalysisFields where
  finalAnswer : JsValue
  riskAssessment : JsValue
  documentationAndApprovals : JsValue
  procurementStrategy : JsValue
deriving Repr

/-- Renderable content of a turn: `plainText` is the paragraph rendering
of the raw value (`none` when that value is `undefined`, as for a reply
body without a `response` property); `structuredAnalysis` is the
four-field analysis layout. -/
inductive DisplayContent : Type where
  | plainText : Option String → DisplayContent
  | structuredAnalysis : AnalysisFields → DisplayContent
deriving Repr

/-- Field extraction of the structured rendering, for a parsed value on
which property access does not throw (anything but `null`):
`parsed?.analysis?.final_answer || "Not provided"` and
`parsed.analysis?.analysis?.<key> || "N/A"` for the three detail keys. -/
def renderStructured (parsed : JsValue) : AnalysisFields :=
  let a := getProp parsed "analysis"
  { finalAnswer := jsOr (optChain a "final_answer") (.jstr "Not provided")
    riskAssessment := jsOr (optChain (optChain a "analysis") "risk_assessment") (.jstr "N/A")
    documentationAndApprovals :=
      jsOr (optChain (optChain a "analysis") "documentation_and_approvals") (.jstr "N/A")
    procurementStrategy :=
      jsOr (optChain (optChain a "analysis") "procurement_strategy") (.jstr "N/A") }

/-- The response interpreter of `sendMessage`: try `JSON.parse` on the
reply; on a `SyntaxError` the catch yields the plain-text paragraph. A
parse result of `null` also falls back: `parsed.analysis` on the
risk-assessment line throws a `TypeError` inside the same try block
(evaluated eagerly while building the element) and is caught by the same
catch. Every other parse result produces the structured rendering. -/
def interpretReply (raw : String) : DisplayContent :=
  match parseJson raw with
  | none => .plainText (some raw)
  | some .jnull => .plainText (some raw)
  | some parsed => .structuredAnalysis (renderStructured parsed)

/-- One selectable assistant fetched from the directory. -/
structure Assistant where
  id : String
  name : String
deriving Repr

/-- Author of a turn. -/
inductive Role : Type where
  | user : Role
  | assistant : Role
deriving Repr, DecidableEq

/-- One entry of the conversation log. -/
structure Turn where
  role : Role
  content : DisplayContent
deriving Repr

/-- The React component state: `message` buffer, `conversations` log,
`assistants` directory, `selectedAssistant` id (empty string when none)
and the `loading` pending flag. -/
structure SessionState where
  message : String
  conversations : List Turn
  assistants : List Assistant
  selectedAssistant : String
  loading : Bool
deriving Repr

/-- Whitespace for the JS `String.prototype.trim`: tab through carriage
return, space, NBSP, the Unicode space separators, line and paragraph
separators and the BOM. -/
def isJsWhitespace (c : Char) : Bool :=
  let n := c.toNat
  (9 ≤ n && n ≤ 13) || n = 32 || n = 0xa0 || n = 0x1680 ||
    (0x2000 ≤ n && n ≤ 0x200a) || n = 0x2028 || n = 0x2029 ||
    n = 0x202f || n = 0x205f || n = 0x3000 || n = 0xfeff

/-- The JS `message.trim()`: strip leading and trailing whitespace. -/
def jsTrim (s : String) : String :=
  String.mk (((s.data.dropWhile isJsWhitespace).reverse.dropWhile isJsWhitespace).reverse)

/-- The guard opening `sendMessage`:
`if (!message.trim() || !selectedAssistant) return` — the trimmed message
and the selected-assistant id must both be non-empty (truthy). -/
def guardsPass (s : SessionState) : Bool :=
  jsTrim s.message != "" && s.selectedAssistant != ""

/-- The optimistic user turn: role `user`, content the raw (untrimmed)
message text. -/
def userTurn (text : String) : Turn :=
  ⟨.user, .plainText (some text)⟩

/-- Outcome of the backend exchange, resolved at the single suspension
point. `netError` models a rejection of `fetch` or of `response.json()`
(the only throws reaching the outer catch). `httpReply ok resp` models a
response whose body parsed as JSON: `ok` is the HTTP success status —
never inspected by the code — and `resp` is `data.response` when that
property is a string, `none` when it is absent (`undefined`), as in an
error body from a non-success status; replies whose `response` property
is a non-string JSON value are outside the model. -/
inductive ExchangeOutcome : Type where
  | netError : ExchangeOutcome
  | httpReply : Bool → Option String → ExchangeOutcome

/-- Content of the appended assistant turn for a JSON reply body:
a string `response` goes through the interpreter; an absent one makes
`JSON.parse(undefined)` throw, so the catch renders the still-`undefined`
content as an empty paragraph. -/
def replyContent (resp : Option String) : DisplayContent :=
  match resp with
  | some r => interpretReply r
  | none => .plainText none

/-- The `sendMessage` handler run to completion against a given exchange
outcome. Returns the final state and whether a request was issued. When
the guard refuses, nothing happens. Otherwise: `loading` is set and the
user turn appended (the optimistic update), the request goes out; a
thrown exchange only logs, a JSON reply body appends the assistant turn;
the `finally` clause clears `loading` and empties the message buffer. -/
def sendMessage (s : SessionState) (outcome : ExchangeOutcome) : SessionState × Bool :=
  if guardsPass s then
    let s1 := { s with loading := true,
                       conversations := s.conversations ++ [userTurn s.message] }
    match outcome with
    | .netError => ({ s1 with loading := false, message := "" }, true)
    | .httpReply _ resp =>
      ({ s1 with conversations := s1.conversations ++ [⟨.assistant, replyContent resp⟩],
                 loading := false, message := "" }, true)
  else (s, false)

/-- The component state at the suspension point: after the guard, the
`setLoading(true)` and the optimistic user-turn append, while the fetch
is still outstanding. -/
def sendMessagePending (s : SessionState) : SessionState :=
  if guardsPass s then
    { s with loading := true,
             conversations := s.conversations ++ [userTurn s.message] }
  else s

/-- Whether the form can emit a submit event: both the textarea and the
send button carry `disabled=\x7bloading || !selectedAssistant\x7d`, so no
user gesture can submit while `loading` is set or no assistant is
selected. -/
def submitEnabled (s : SessionState) : Bool :=
  !s.loading && s.selectedAssistant != ""

/-- A UI-level submit attempt: when the controls are disabled no event
fires and nothing runs; otherwise the `sendMessage` handler runs. -/
def submit (s : SessionState) (outcome : ExchangeOutcome) : SessionState × Bool :=
  if submitEnabled s then sendMessage s outcome else (s, false)

/-- C4: a submit whose message text is empty after trimming, or issued
with no assistant selected, leaves the whole session state unchanged and
issues no backend request. -/
theorem c4_refused_submit_changes_nothing (s : SessionState) (outcome : ExchangeOutcome)
    (h : jsTrim s.message = "" ∨ s.selectedAssistant = "") :
    sendMessage s outcome = (s, false) := by
  have hg : guardsPass s = false := by
    rcases h with h | h <;> simp [guardsPass, h]
  simp [sendMessage, hg]

/-- Witness for C4: a whitespace-only message with an assistant selected
is refused without any state change. -/
theorem c4_witness :
    jsTrim "  " = "" ∧
      sendMessage ⟨"  ", [], [⟨"a1", "Legal"⟩], "a1", false⟩ .netError =
        (⟨"  ", [], [⟨"a1", "Legal"⟩], "a1", false⟩, false) :=
  ⟨rfl, c4_refused_submit_changes_nothing _ _ (Or.inl rfl)⟩

/-- C3: while an exchange is in flight (`loading` set), a further submit
attempt is a no-op — the disabled controls let no event through, so no
state changes, no turn is appended and no request goes out. -/
theorem c3_submit_noop_while_loading (s : SessionState) (outcome : ExchangeOutcome)
    (h : s.loading = true) :
    submit s outcome = (s, false) := by
  simp [submit, submitEnabled, h]

/-- Witness for C3: submitting during a pending exchange changes
nothing. -/
theorem c3_witness :
    (⟨"hi", [], [⟨"a1", "Legal"⟩], "a1", true⟩ : SessionState).loading = true ∧
      submit ⟨"hi", [], [⟨"a1", "Legal"⟩], "a1", true⟩ .netError =
        (⟨"hi", [], [⟨"a1", "Legal"⟩], "a1", true⟩, false) :=
  ⟨rfl, c3_submit_noop_while_loading _ _ rfl⟩

/-- C7: with a non-empty trimmed message and a selected assistant, the
state at the suspension point — before the exchange resolves — has
exactly one new turn appended: the user turn carrying the raw message
text; the controller is in the Sending state. -/
theorem c7_optimistic_user_turn (s : SessionState)
    (hm : jsTrim s.message ≠ "") (ha : s.selectedAssistant ≠ "") :
    (sendMessagePending s).conversations = s.conversations ++ [userTurn s.message] ∧
      (sendMessagePending s).loading = true := by
  have hg : guardsPass s = true := by
    simp [guardsPass, hm, ha]
  simp [sendMessagePending, hg]

/-- Witness for C7: submitting "hello" appends the optimistic user turn
while the request is outstanding. -/
theorem c7_witness :
    jsTrim "hello" ≠ "" ∧
      (sendMessagePending ⟨"hello", [], [⟨"a1", "Legal"⟩], "a1", false⟩).conversations =
        [userTurn "hello"] ∧
      (sendMessagePending ⟨"hello", [], [⟨"a1", "Legal"⟩], "a1", false⟩).loading = true := by
  refine ⟨by decide, ?_, ?_⟩
  · have h := c7_optimistic_user_turn ⟨"hello", [], [⟨"a1", "Legal"⟩], "a1", false⟩
      (by decide) (by decide)
    simpa using h.1
  · exact (c7_optimistic_user_turn ⟨"hello", [], [⟨"a1", "Legal"⟩], "a1", false⟩
      (by decide) (by decide)).2

/-- C8: whatever the outcome of the exchange, completion clears the
pending flag (back to Idle) and empties the message buffer. -/
theorem c8_completion_resets (s : SessionState) (outcome : ExchangeOutcome)
    (h : guardsPass s = true) :
    (sendMessage s outcome).1.loading = false ∧ (sendMessage s outcome).1.message = "" := by
  cases outcome <;> simp [sendMessage, h]

/-- Witness for C8: both a network error and a reply leave the
controller Idle with an empty buffer. -/
theorem c8_witness :
    guardsPass ⟨"hi", [], [⟨"a1", "Legal"⟩], "a1", false⟩ = true ∧
      (sendMessage ⟨"hi", [], [⟨"a1", "Legal"⟩], "a1", false⟩ .netError).1.loading = false ∧
      (sendMessage ⟨"hi", [], [⟨"a1", "Legal"⟩], "a1", false⟩ .netError).1.message = "" :=
  ⟨rfl,
    (c8_completion_resets ⟨"hi", [], [⟨"a1", "Legal"⟩], "a1", false⟩ .netError rfl).1,
    (c8_completion_resets ⟨"hi", [], [⟨"a1", "Legal"⟩], "a1", false⟩ .netError rfl).2⟩

/-- C5: once the exchange completes, a reply body appends exactly one
assistant turn immediately after the user turn (total turns grow by
exactly 2) and a thrown failure appends no further turn (total turns
grow by exactly 1); never more than one assistant turn. -/
theorem c5_turn_count_invariant (s : SessionState) (h : guardsPass s = true) :
    (∀ ok resp,
      (sendMessage s (.httpReply ok resp)).1.conversations =
        s.conversations ++ [userTurn s.message, ⟨.assistant, replyContent resp⟩] ∧
      ((sendMessage s (.httpReply ok resp)).1.conversations).length =
        s.conversations.length + 2) ∧
    ((sendMessage s .netError).1.conversations = s.conversations ++ [userTurn s.message] ∧
      ((sendMessage s .netError).1.conversations).length = s.conversations.length + 1) := by
  refine ⟨fun ok resp => ⟨?_, ?_⟩, ?_, ?_⟩ <;> simp [sendMessage, h]

/-- Witness for C5: from an empty log, a successful exchange yields the
user turn followed by one assistant turn; a failed one only the user
turn. -/
theorem c5_witness :
    guardsPass ⟨"hello", [], [⟨"a1", "Legal"⟩], "a1", false⟩ = true ∧
      (sendMessage ⟨"hello", [], [⟨"a1", "Legal"⟩], "a1", false⟩
          (.httpReply true (some "hi there"))).1.conversations =
        [userTurn "hello", ⟨.assistant, replyContent (some "hi there")⟩] ∧
      (sendMessage ⟨"hello", [], [⟨"a1", "Legal"⟩], "a1", false⟩ .netError).1.conversations =
        [userTurn "hello"] := by
  refine ⟨rfl, ?_, ?_⟩
  · simpa using ((c5_turn_count_invariant
      (⟨"hello", [], [⟨"a1", "Legal"⟩], "a1", false⟩ : SessionState) rfl).1
        true (some "hi there")).1
  · simpa using (c5_turn_count_invariant
      (⟨"hello", [], [⟨"a1", "Legal"⟩], "a1", false⟩ : SessionState) rfl).2.1

/-- C2 (amended): an exchange that fails by a thrown error — `fetch` or
`response.json()` rejecting — appends no assistant turn, keeps the
already-appended user turn, and changes nothing else beyond clearing the
pending flag and the message buffer; the request was issued. -/
theorem c2_thrown_failure_appends_no_assistant_turn (s : SessionState)
    (h : guardsPass s = true) :
    (sendMessage s .netError).1 =
      { s with loading := false, message := "",
               conversations := s.conversations ++ [userTurn s.message] } ∧
      (sendMessage s .netError).2 = true := by
  simp [sendMessage, h]

/-- Witness for C2 (amended): a network error leaves exactly the user
turn in the log. -/
theorem c2_witness :
    guardsPass ⟨"hi", [], [⟨"a1", "Legal"⟩], "a1", false⟩ = true ∧
      (sendMessage ⟨"hi", [], [⟨"a1", "Legal"⟩], "a1", false⟩ .netError).1 =
        ⟨"", [userTurn "hi"], [⟨"a1", "Legal"⟩], "a1", false⟩ :=
  ⟨rfl, (c2_thrown_failure_appends_no_assistant_turn
    (⟨"hi", [], [⟨"a1", "Legal"⟩], "a1", false⟩ : SessionState) rfl).1⟩

/-- Counterexample to C2 as stated: a non-success HTTP status whose JSON
body has no `response` string is not treated as a failure — the code
never inspects the status — and an assistant turn (an empty paragraph
from the `undefined` content) IS appended after the user turn. -/
theorem c2_counterexample :
    (sendMessage ⟨"hi", [], [⟨"a1", "Legal"⟩], "a1", false⟩
        (.httpReply false none)).1.conversations =
      [userTurn "hi", ⟨.assistant, .plainText none⟩] ∧
      ((sendMessage ⟨"hi", [], [⟨"a1", "Legal"⟩], "a1", false⟩
          (.httpReply false none)).1.conversations).length = 2 := by
  exact ⟨rfl, rfl⟩

/-- C1 (amended): the interpreter yields PlainText equal to the original
string exactly when JSON parsing fails or parses to `null` (whose
property access throws inside the same try block); every other
successful parse — with or without an analysis object — takes the
structured branch. -/
theorem c1_plaintext_iff_parse_fails_or_null (raw : String) :
    interpretReply raw = .plainText (some raw) ↔
      (parseJson raw = none ∨ parseJson raw = some .jnull) := by
  rcases hp : parseJson raw with _ | v
  · simp [interpretReply, hp]
  · cases v <;> simp [interpretReply, hp]

/-- Counterexample to C1 as stated: an empty-object reply parses successfully
and exposes no analysis object, yet the interpreter takes the
StructuredAnalysis branch (all placeholders) instead of producing
PlainText equal to the original string. -/
theorem c1_counterexample :
    parseJson "\x7b\x7d" = some (.jobj []) ∧
      getProp (.jobj []) "analysis" = none ∧
      interpretReply "\x7b\x7d" =
        .structuredAnalysis ⟨.jstr "Not provided", .jstr "N/A", .jstr "N/A", .jstr "N/A"⟩ ∧
      interpretReply "\x7b\x7d" ≠ .plainText (some "\x7b\x7d") := by
  refine ⟨rfl, rfl, rfl, ?_⟩
  intro h
  exact DisplayContent.noConfusion h

/-- C9: a reply that parses as a JSON value other than `null` always
yields the structured rendering — never PlainText — and when that value
has no `analysis` property (a bare number, a boolean, a quoted string,
an array, an object without the key) every field sits at its
placeholder. -/
theorem c9_non_analysis_value_renders_placeholders (raw : String) (v : JsValue)
    (hp : parseJson raw = some v) (hn : v ≠ .jnull)
    (ha : getProp v "analysis" = none) :
    interpretReply raw = .structuredAnalysis (renderStructured v) ∧
      renderStructured v =
        ⟨.jstr "Not provided", .jstr "N/A", .jstr "N/A", .jstr "N/A"⟩ := by
  constructor
  · unfold interpretReply
    rw [hp]
    cases v
    all_goals first
      | rfl
      | exact absurd rfl hn
  · simp [renderStructured, ha, optChain, jsOr, truthy]

/-- Witness for C9: the bare number reply `"42"` renders as a structured
analysis with all four placeholders. -/
theorem c9_witness :
    parseJson "42" = some (.jnum "42") ∧
      getProp (.jnum "42") "analysis" = none ∧
      interpretReply "42" =
        .structuredAnalysis ⟨.jstr "Not provided", .jstr "N/A", .jstr "N/A", .jstr "N/A"⟩ := by
  refine ⟨rfl, rfl, ?_⟩
  have h := c9_non_analysis_value_renders_placeholders "42" (.jnum "42") rfl
    (fun h => JsValue.noConfusion h) rfl
  rw [h.1, h.2]

/-- C6 (amended): a structured reply whose four analysis fields are all
present with non-empty string values yields a StructuredAnalysis
carrying those values verbatim. -/
theorem c6_nonempty_fields_carried_verbatim (raw : String) (v : JsValue)
    (fa ra da ps : String)
    (hp : parseJson raw = some v)
    (h1 : optChain (getProp v "analysis") "final_answer" = some (.jstr fa))
    (h2 : optChain (optChain (getProp v "analysis") "analysis") "risk_assessment" =
      some (.jstr ra))
    (h3 : optChain (optChain (getProp v "analysis") "analysis") "documentation_and_approvals" =
      some (.jstr da))
    (h4 : optChain (optChain (getProp v "analysis") "analysis") "procurement_strategy" =
      some (.jstr ps))
    (nf : fa ≠ "") (nr : ra ≠ "") (nd : da ≠ "") (np : ps ≠ "") :
    interpretReply raw = .structuredAnalysis ⟨.jstr fa, .jstr ra, .jstr da, .jstr ps⟩ := by
  have hmatch : interpretReply raw = .structuredAnalysis (renderStructured v) := by
    unfold interpretReply
    rw [hp]
    cases v
    all_goals first
      | rfl
      | simp [getProp, optChain] at h1
  rw [hmatch]
  simp only [renderStructured]
  rw [h1, h2, h3, h4]
  simp [jsOr, truthy, nf, nr, nd, np]

/-- Witness for C6 (amended): a full four-field structured reply is
carried verbatim. -/
theorem c6_witness :
    parseJson "\x7b\"analysis\":\x7b\"final_answer\":\"Approve\",\"analysis\":\x7b\"risk_assessment\":\"Low\",\"documentation_and_approvals\":\"Done\",\"procurement_strategy\":\"Direct\"\x7d\x7d\x7d" =
      some (.jobj [("analysis", .jobj [("final_answer", .jstr "Approve"),
        ("analysis", .jobj [("risk_assessment", .jstr "Low"),
          ("documentation_and_approvals", .jstr "Done"),
          ("procurement_strategy", .jstr "Direct")])])]) ∧
      interpretReply "\x7b\"analysis\":\x7b\"final_answer\":\"Approve\",\"analysis\":\x7b\"risk_assessment\":\"Low\",\"documentation_and_approvals\":\"Done\",\"procurement_strategy\":\"Direct\"\x7d\x7d\x7d" =
        .structuredAnalysis ⟨.jstr "Approve", .jstr "Low", .jstr "Done", .jstr "Direct"⟩ :=
  ⟨rfl, c6_nonempty_fields_carried_verbatim _
    (.jobj [("analysis", .jobj [("final_answer", .jstr "Approve"),
      ("analysis", .jobj [("risk_assessment", .jstr "Low"),
        ("documentation_and_approvals", .jstr "Done"),
        ("procurement_strategy", .jstr "Direct")])])])
    "Approve" "Low" "Done" "Direct" rfl rfl rfl rfl rfl
    (by decide) (by decide) (by decide) (by decide)⟩

/-- Counterexample to C6 as stated: a structured reply containing all
four fields, with the empty string as `final_answer`, does not carry
that value verbatim — the falsy empty string is replaced by the
"Not provided" placeholder. -/
theorem c6_counterexample :
    parseJson "\x7b\"analysis\":\x7b\"final_answer\":\"\",\"analysis\":\x7b\"risk_assessment\":\"R\",\"documentation_and_approvals\":\"D\",\"procurement_strategy\":\"P\"\x7d\x7d\x7d" =
      some (.jobj [("analysis", .jobj [("final_answer", .jstr ""),
        ("analysis", .jobj [("risk_assessment", .jstr "R"),
          ("documentation_and_approvals", .jstr "D"),
          ("procurement_strategy", .jstr "P")])])]) ∧
      interpretReply "\x7b\"analysis\":\x7b\"final_answer\":\"\",\"analysis\":\x7b\"risk_assessment\":\"R\",\"documentation_and_approvals\":\"D\",\"procurement_strategy\":\"P\"\x7d\x7d\x7d" =
        .structuredAnalysis ⟨.jstr "Not provided", .jstr "R", .jstr "D", .jstr "P"⟩ ∧
      interpretReply "\x7b\"analysis\":\x7b\"final_answer\":\"\",\"analysis\":\x7b\"risk_assessment\":\"R\",\"documentation_and_approvals\":\"D\",\"procurement_strategy\":\"P\"\x7d\x7d\x7d" ≠
        .structuredAnalysis ⟨.jstr "", .jstr "R", .jstr "D", .jstr "P"⟩ := by
  refine ⟨rfl, rfl, ?_⟩
  intro h
  have h2 : (DisplayContent.structuredAnalysis
      ⟨.jstr "Not provided", .jstr "R", .jstr "D", .jstr "P"⟩) =
      .structuredAnalysis ⟨.jstr "", .jstr "R", .jstr "D", .jstr "P"⟩ := h
  injection h2 with hf
  injection hf with g1 g2 g3 g4
  injection g1 with gs
  exact absurd gs (by decide)

/-- C10: a structured reply carrying one of the four analysis fields
with the empty string as its value renders that field as its placeholder
rather than verbatim — present falsy values fall back exactly like
absent ones. -/
theorem c10_empty_string_field_renders_placeholder (raw : String) (v : JsValue)
    (hp : parseJson raw = some v) (hn : v ≠ .jnull) :
    interpretReply raw = .structuredAnalysis (renderStructured v) ∧
      (optChain (getProp v "analysis") "final_answer" = some (.jstr "") →
        (renderStructured v).finalAnswer = .jstr "Not provided") ∧
      (optChain (optChain (getProp v "analysis") "analysis") "risk_assessment" =
          some (.jstr "") →
        (renderStructured v).riskAssessment = .jstr "N/A") ∧
      (optChain (optChain (getProp v "analysis") "analysis") "documentation_and_approvals" =
          some (.jstr "") →
        (renderStructured v).documentationAndApprovals = .jstr "N/A") ∧
      (optChain (optChain (getProp v "analysis") "analysis") "procurement_strategy" =
          some (.jstr "") →
        (renderStructured v).procurementStrategy = .jstr "N/A") := by
  refine ⟨?_, ?_, ?_, ?_, ?_⟩
  · unfold interpretReply
    rw [hp]
    cases v
    all_goals first
      | rfl
      | exact absurd rfl hn
  all_goals intro h
  all_goals simp [renderStructured, h, jsOr, truthy]

/-- Witness for C10: a reply whose `final_answer` is present but empty
renders the "Not provided" placeholder. -/
theorem c10_witness :
    parseJson "\x7b\"analysis\":\x7b\"final_answer\":\"\",\"analysis\":\x7b\"risk_assessment\":\"R\",\"documentation_and_approvals\":\"D\",\"procurement_strategy\":\"P\"\x7d\x7d\x7d" =
      some (.jobj [("analysis", .jobj [("final_answer", .jstr ""),
        ("analysis", .jobj [("risk_assessment", .jstr "R"),
          ("documentation_and_approvals", .jstr "D"),
          ("procurement_strategy", .jstr "P")])])]) ∧
      (renderStructured (.jobj [("analysis", .jobj [("final_answer", .jstr ""),
        ("analysis", .jobj [("risk_assessment", .jstr "R"),
          ("documentation_and_approvals", .jstr "D"),
          ("procurement_strategy", .jstr "P")])])])).finalAnswer = .jstr "Not provided" :=
  ⟨rfl, (c10_empty_string_field_renders_placeholder
    "\x7b\"analysis\":\x7b\"final_answer\":\"\",\"analysis\":\x7b\"risk_assessment\":\"R\",\"documentation_and_approvals\":\"D\",\"procurement_strategy\":\"P\"\x7d\x7d\x7d"
    (.jobj [("analysis", .jobj [("final_answer", .jstr ""),
      ("analysis", .jobj [("risk_assessment", .jstr "R"),
        ("documentation_and_approvals", .jstr "D"),
        ("procurement_strategy", .jstr "P")])])])
    rfl (fun h => JsValue.noConfusion h)).2.1 rfl⟩

end ChatUI
